import Mathlib

/-!
Shallow embedding of the vortex-board real-time Kanban core
(apps/core/models.py, apps/core/permissions.py, apps/board/views.py).

Database rows are Lean structures, the database is explicit lists of rows,
and each Django view or model method becomes a pure function from the
database (plus request parameters) to a typed result and an updated
database.  Text fields that no verified claim reads (descriptions, colors,
reproduction steps, ...) are omitted from the row structures; every field
that any claim touches is kept with its source name.
-/

/-- `Usuario.tipo` choices: admin, gerente (manager), funcionario (worker). -/
inductive Tipo where
  | admin
  | gerente
  | funcionario
deriving DecidableEq, Repr

/-- `Bug.severidade` choices. -/
inductive Severidade where
  | baixa
  | media
  | alta
  | critica
deriving DecidableEq, Repr

/-- Item variant tag: the `item_type` request field (Bug and Feature are
separate tables, so ids are only unique per variant). -/
inductive ItemTipo where
  | bug
  | feature
deriving DecidableEq, Repr

/-- `Usuario` row (apps/core/models.py).  `empresa` is the tenant field. -/
structure Usuario where
  id : Nat
  empresa : String
  tipo : Tipo
  is_authenticated : Bool
deriving DecidableEq, Repr

/-- `Projeto` row.  `membros` holds member user ids; `criado_por` is the
creating user (denormalised into the row as in `projeto.criado_por`). -/
structure Projeto where
  id : Nat
  criado_por : Usuario
  membros : List Nat
  ativo : Bool
deriving DecidableEq, Repr

/-- `Board` row. -/
structure Board where
  id : Nat
  projetoId : Nat
deriving DecidableEq, Repr

/-- `Coluna` row.  `limite_wip = 0` means unlimited. -/
structure Coluna where
  id : Nat
  boardId : Nat
  titulo : String
  ordem : Int
  limite_wip : Int
deriving DecidableEq, Repr

/-- Common `ItemBase` fields of a `Bug` or `Feature` row that the verified
operations read or write. -/
structure ItemRec where
  id : Nat
  titulo : String
  colunaId : Nat
  responsavelId : Option Nat
  criadoPorId : Nat
  ordem : Int
  arquivado : Bool
deriving DecidableEq, Repr

/-- `RegistroHora` row.  Timestamps are integers (epoch seconds); `fim = none`
is an open (in-progress) entry. -/
structure RegistroHora where
  id : Nat
  usuarioId : Nat
  bugId : Option Nat
  featureId : Option Nat
  inicio : Int
  fim : Option Int
deriving DecidableEq, Repr

/-- The database: one list per table, plus a fresh-id counter standing in for
the auto-increment primary key. -/
structure DB where
  projetos : List Projeto
  boards : List Board
  colunas : List Coluna
  bugs : List ItemRec
  features : List ItemRec
  registros : List RegistroHora
  nextId : Nat
deriving DecidableEq, Repr

def findProjeto (db : DB) (pid : Nat) : Option Projeto :=
  db.projetos.find? (fun p => p.id == pid)

def findBoard (db : DB) (bid : Nat) : Option Board :=
  db.boards.find? (fun b => b.id == bid)

def findColuna (db : DB) (cid : Nat) : Option Coluna :=
  db.colunas.find? (fun c => c.id == cid)

/-- `get_object_or_404(Bug/Feature, id=item_id)` on the table selected by
`item_type`. -/
def findItem (db : DB) (tipo : ItemTipo) (iid : Nat) : Option ItemRec :=
  match tipo with
  | .bug => db.bugs.find? (fun i => i.id == iid)
  | .feature => db.features.find? (fun i => i.id == iid)

/-- `item.coluna.board.projeto`: the foreign-key chain from a column id to its
project. -/
def projetoDaColuna (db : DB) (cid : Nat) : Option Projeto := do
  let c ← findColuna db cid
  let b ← findBoard db c.boardId
  findProjeto db b.projetoId

/-- `VortexPermissions.tem_acesso_projeto` (apps/core/permissions.py):
admins are allowed unconditionally (no tenant comparison is made), everyone
else must be a member of the project. -/
def tem_acesso_projeto (u : Usuario) (p : Projeto) : Bool :=
  if !u.is_authenticated then false
  else if u.tipo == .admin then true
  else p.membros.contains u.id

/-- `VortexPermissions.tem_acesso_board`: delegates to the project gate. -/
def tem_acesso_board (db : DB) (u : Usuario) (b : Board) : Bool :=
  match findProjeto db b.projetoId with
  | some p => tem_acesso_projeto u p
  | none => false

/-- `VortexPermissions.pode_mover_item`: admin or gerente must additionally be
a member of the items project; a funcionario may move only items assigned to
them; otherwise deny. -/
def pode_mover_item (db : DB) (u : Usuario) (item : ItemRec) : Bool :=
  if !u.is_authenticated then false
  else
    let adminGerenteMembro :=
      (u.tipo == .admin || u.tipo == .gerente) &&
        (match projetoDaColuna db item.colunaId with
         | some p => p.membros.contains u.id
         | none => false)
    if adminGerenteMembro then true
    else if u.tipo == .funcionario && item.responsavelId == some u.id then true
    else false

/-- `VortexPermissions.pode_editar_item`. -/
def pode_editar_item (db : DB) (u : Usuario) (item : ItemRec) : Bool :=
  if !u.is_authenticated then false
  else if u.tipo == .admin then true
  else if item.criadoPorId == u.id then true
  else if item.responsavelId == some u.id then true
  else if u.tipo == .gerente then
    match projetoDaColuna db item.colunaId with
    | some p => p.membros.contains u.id
    | none => false
  else false

/-- `VortexPermissions.pode_registrar_hora`: only the assignee. -/
def pode_registrar_hora (u : Usuario) (item : ItemRec) : Bool :=
  if !u.is_authenticated then false
  else item.responsavelId == some u.id

/-- Count of non-archived items (bugs and features) whose `coluna` is `cid`:
the quantity the WIP limit is specified against. -/
def countAtivos (db : DB) (cid : Nat) : Nat :=
  ((db.bugs ++ db.features).filter (fun i => i.colunaId == cid && !i.arquivado)).length

/-- `Coluna.pode_adicionar_item` (apps/core/models.py).  With
`limite_wip == 0` it returns `True` without touching the item tables.
Otherwise it evaluates `self.items.filter(arquivado=False).count()`, but the
`Coluna` model has no `items` attribute: the reverse accessors created by
`related_name` on `ItemBase.coluna` are `bug_items` and `feature_items`
(used as such in apps/core/admin.py and apps/core/utils.py), so Python
raises `AttributeError` before any comparison happens.  The raise is
modelled as `Except.error`. -/
def pode_adicionar_item (db : DB) (c : Coluna) : Except String Bool :=
  if c.limite_wip == 0 then .ok true
  else .error "AttributeError: Coluna object has no attribute items"

/-- Result of `mover_item_ajax` (apps/board/views.py).  The whole view body is
wrapped in `try/except Exception`, so the `Http404` raised by
`get_object_or_404` and the `AttributeError` raised inside
`pode_adicionar_item` are both caught and surface as distinct
`success: False` JSON payloads, modelled as distinct constructors. -/
inductive MoveResult where
  | itemNaoEncontrado
  | semPermissao
  | colunaNaoEncontrada
  | atributoErro
  | wipExcedido
  | sucesso
deriving DecidableEq, Repr

/-- The committed update of `mover_item_ajax`: `item.coluna = nova_coluna;
item.ordem = nova_ordem; item.save()`. -/
def setItemColuna (db : DB) (tipo : ItemTipo) (itemId : Nat) (cid : Nat)
    (novaOrdem : Int) : DB :=
  match tipo with
  | .bug =>
    { db with bugs := db.bugs.map (fun i =>
        if i.id == itemId then { i with colunaId := cid, ordem := novaOrdem } else i) }
  | .feature =>
    { db with features := db.features.map (fun i =>
        if i.id == itemId then { i with colunaId := cid, ordem := novaOrdem } else i) }

/-- `mover_item_ajax` (apps/board/views.py), after JSON parsing and the
presence check on the request fields: look up the item, check
`pode_mover_item`, look up the target column, evaluate
`not nova_coluna.pode_adicionar_item() and nova_coluna != item.coluna`
(Python evaluates the left operand first, so the `AttributeError` from a
WIP-limited column fires before the same-column comparison), then commit. -/
def mover_item (db : DB) (u : Usuario) (tipo : ItemTipo) (itemId : Nat)
    (novaColunaId : Nat) (novaOrdem : Int) : MoveResult × DB :=
  match findItem db tipo itemId with
  | none => (.itemNaoEncontrado, db)
  | some item =>
    if !pode_mover_item db u item then (.semPermissao, db)
    else
      match findColuna db novaColunaId with
      | none => (.colunaNaoEncontrada, db)
      | some nova =>
        match pode_adicionar_item db nova with
        | .error _ => (.atributoErro, db)
        | .ok podeAdicionar =>
          if !podeAdicionar && nova.id != item.colunaId then (.wipExcedido, db)
          else (.sucesso, setItemColuna db tipo itemId nova.id novaOrdem)

/-- Result of the POST branch of `criar_item_modal` (apps/board/views.py). -/
inductive CreateResult where
  | boardNaoEncontrado
  | semAcesso
  | camposObrigatorios
  | colunaInvalida
  | responsavelInvalido
  | criado (itemId : Nat)
deriving DecidableEq, Repr

/-- POST branch of `criar_item_modal` (apps/board/views.py): board lookup,
`tem_acesso_board`, required-field check, `board.colunas.get(id=coluna_id)`
(the column must belong to the board), optional
`board.projeto.membros.get(id=responsavel_id)`, then
`Bug.objects.create(...)` / `Feature.objects.create(...)`.
The view never consults `pode_adicionar_item` or any other WIP check before
inserting. -/
def criar_item (db : DB) (u : Usuario) (boardId : Nat) (tipo : ItemTipo)
    (titulo : String) (colunaId : Nat) (responsavelId : Option Nat) :
    CreateResult × DB :=
  match findBoard db boardId with
  | none => (.boardNaoEncontrado, db)
  | some board =>
    if !tem_acesso_board db u board then (.semAcesso, db)
    else if titulo == "" then (.camposObrigatorios, db)
    else
      match db.colunas.find? (fun c => c.id == colunaId && c.boardId == board.id) with
      | none => (.colunaInvalida, db)
      | some coluna =>
        let membros := match findProjeto db board.projetoId with
          | some p => p.membros
          | none => []
        let respOk := match responsavelId with
          | some rid => membros.contains rid
          | none => true
        if !respOk then (.responsavelInvalido, db)
        else
          let novo : ItemRec :=
            { id := db.nextId, titulo := titulo, colunaId := coluna.id,
              responsavelId := responsavelId, criadoPorId := u.id,
              ordem := 0, arquivado := false }
          match tipo with
          | .bug =>
            (.criado db.nextId, { db with bugs := db.bugs ++ [novo], nextId := db.nextId + 1 })
          | .feature =>
            (.criado db.nextId, { db with features := db.features ++ [novo], nextId := db.nextId + 1 })

/-- `RegistroHora.objects.filter(usuario=u, fim__isnull=True)`: the open time
entries of a user, across all boards and items. -/
def registros_abertos (db : DB) (uid : Nat) : List RegistroHora :=
  db.registros.filter (fun r => r.usuarioId == uid && r.fim == none)

/-- Result of `iniciar_registro_hora` (apps/board/views.py). -/
inductive StartResult where
  | itemNaoEncontrado
  | semPermissao
  | registroJaAberto
  | iniciado (registroId : Nat)
deriving DecidableEq, Repr

/-- `iniciar_registro_hora` (apps/board/views.py): item lookup (a real 404
here, no blanket except), `pode_registrar_hora`, then reject when the user
already has any open entry, else create a new open entry with
`inicio = timezone.now()` (passed as `agora`). -/
def iniciar_registro_hora (db : DB) (u : Usuario) (tipo : ItemTipo)
    (itemId : Nat) (agora : Int) : StartResult × DB :=
  match findItem db tipo itemId with
  | none => (.itemNaoEncontrado, db)
  | some item =>
    if !pode_registrar_hora u item then (.semPermissao, db)
    else if !(registros_abertos db u.id).isEmpty then (.registroJaAberto, db)
    else
      let novo : RegistroHora :=
        { id := db.nextId
          usuarioId := u.id
          bugId := if tipo == .bug then some itemId else none
          featureId := if tipo == .feature then some itemId else none
          inicio := agora
          fim := none }
      (.iniciado db.nextId,
        { db with registros := db.registros ++ [novo], nextId := db.nextId + 1 })

/-- Result of `finalizar_registro_hora` (apps/board/views.py). -/
inductive StopResult where
  | naoEncontrado
  | finalizado
deriving DecidableEq, Repr

/-- `finalizar_registro_hora` (apps/board/views.py):
`get_object_or_404(RegistroHora, id=registro_id, usuario=request.user,
fim__isnull=True)` rejects a missing id, an entry of another user, and an
already-closed entry with `Http404`; then it sets `fim = timezone.now()`
(passed as `agora`) and calls `save()`.  `Model.save()` does not run
`RegistroHora.clean()`, so no comparison of `fim` against `inicio` happens
on this path. -/
def finalizar_registro_hora (db : DB) (u : Usuario) (registroId : Nat)
    (agora : Int) : StopResult × DB :=
  match db.registros.find? (fun r =>
      r.id == registroId && r.usuarioId == u.id && r.fim == none) with
  | none => (.naoEncontrado, db)
  | some r =>
    (.finalizado,
      { db with registros := db.registros.map (fun x =>
          if x.id == r.id then { x with fim := some agora } else x) })

/-- The `bonus_severidade` dict literal inside `Bug.calcular_pontos`. -/
def bonus_severidade : List (Severidade × Nat) :=
  [(.baixa, 0), (.media, 1), (.alta, 2), (.critica, 3)]

/-- `Bug.calcular_pontos` (apps/core/models.py): 3 base points plus
`bonus_severidade.get(self.severidade, 0)`. -/
def calcular_pontos_bug (severidade : Severidade) : Nat :=
  3 + (bonus_severidade.lookup severidade).getD 0

/-- `Feature.calcular_pontos` (apps/core/models.py): 5 base points plus a
bracket bonus on `estimativa_horas` (a `Decimal`, embedded as a rational). -/
def calcular_pontos_feature (estimativa_horas : ℚ) : Nat :=
  let pontos_base := 5
  if estimativa_horas ≤ 4 then pontos_base
  else if estimativa_horas ≤ 8 then pontos_base + 3
  else if estimativa_horas ≤ 16 then pontos_base + 5
  else pontos_base + 8

/-- The severity bonus table exactly as the spec words it (low 0, medium 1,
high 2, critical 3); compared against the dict lookup of the source. -/
def bonusSeveridadeSpec : Severidade → Nat
  | .baixa => 0
  | .media => 1
  | .alta => 2
  | .critica => 3

/-- `ItemBase.esta_atrasado` (apps/core/models.py): dates embedded as day
numbers, `timezone.now().date()` passed as `hoje`, the items column title as
`tituloColuna`.  Mirrors `if self.prazo and self.coluna.titulo != "Concluído":
return timezone.now().date() > self.prazo` followed by `return False`
(a Python `date` is always truthy, so `if self.prazo` is exactly the
`None` test). -/
def esta_atrasado (prazo : Option Int) (tituloColuna : String) (hoje : Int) : Bool :=
  match prazo with
  | some p => if tituloColuna ≠ "Concluído" then decide (hoje > p) else false
  | none => false

/-- Round to the nearest integer, ties to even: the behaviour of the Python 3
builtin `round` used by `RegistroHora.duracao` (idealised over ℚ, ignoring
binary floating-point representation error). -/
def roundHalfEven (q : ℚ) : ℤ :=
  if q - ⌊q⌋ < 1 / 2 then ⌊q⌋
  else if 1 / 2 < q - ⌊q⌋ then ⌊q⌋ + 1
  else if ⌊q⌋ % 2 = 0 then ⌊q⌋ else ⌊q⌋ + 1

/-- `round(x, 2)`: round to 2 decimal places. -/
def pythonRound2 (q : ℚ) : ℚ :=
  (roundHalfEven (100 * q) : ℚ) / 100

/-- `RegistroHora.duracao` (apps/core/models.py): `0` while the entry is open,
otherwise `round((fim - inicio).total_seconds() / 3600, 2)`. -/
def duracao (r : RegistroHora) : ℚ :=
  match r.fim with
  | some f => pythonRound2 (((f - r.inicio : ℤ) : ℚ) / 3600)
  | none => 0

/-- Gerente of tenant `EmpresaB`, creator and sole member of `projetoB`. -/
def donoB : Usuario :=
  { id := 2, empresa := "EmpresaB", tipo := .gerente, is_authenticated := true }

/-- Admin of a different tenant (`EmpresaA`), not a member of `projetoB`. -/
def adminA : Usuario :=
  { id := 1, empresa := "EmpresaA", tipo := .admin, is_authenticated := true }

/-- Funcionario of tenant `EmpresaA`, unrelated to `projetoB`. -/
def funcA : Usuario :=
  { id := 3, empresa := "EmpresaA", tipo := .funcionario, is_authenticated := true }

/-- Admin of the same tenant as `projetoB` (`EmpresaB`) who is not among its
members. -/
def adminB : Usuario :=
  { id := 4, empresa := "EmpresaB", tipo := .admin, is_authenticated := true }

/-- A project of tenant `EmpresaB`: created by `donoB`, members = {`donoB`}. -/
def projetoB : Projeto :=
  { id := 10, criado_por := donoB, membros := [2], ativo := true }

def boardB : Board := { id := 20, projetoId := 10 }

/-- Unlimited column. -/
def colBacklog : Coluna :=
  { id := 30, boardId := 20, titulo := "Backlog", ordem := 0, limite_wip := 0 }

/-- WIP-limited column (`limite_wip = 2`) holding exactly 2 active items. -/
def colReview : Coluna :=
  { id := 32, boardId := 20, titulo := "Review", ordem := 1, limite_wip := 2 }

/-- WIP-limited column (`limite_wip = 5`) holding no items at all. -/
def colLivre : Coluna :=
  { id := 33, boardId := 20, titulo := "Livre", ordem := 2, limite_wip := 5 }

def bugR1 : ItemRec :=
  { id := 41, titulo := "Bug um", colunaId := 32, responsavelId := some 2,
    criadoPorId := 2, ordem := 0, arquivado := false }

def bugR2 : ItemRec :=
  { id := 42, titulo := "Bug dois", colunaId := 32, responsavelId := none,
    criadoPorId := 2, ordem := 1, arquivado := false }

def bugR3 : ItemRec :=
  { id := 43, titulo := "Bug tres", colunaId := 30, responsavelId := some 2,
    criadoPorId := 2, ordem := 0, arquivado := false }

/-- Open time entry of user 2 (started at t = 100). -/
def regAberto : RegistroHora :=
  { id := 50, usuarioId := 2, bugId := some 43, featureId := none,
    inicio := 100, fim := none }

/-- Closed time entry of user 2. -/
def regFechado : RegistroHora :=
  { id := 51, usuarioId := 2, bugId := some 43, featureId := none,
    inicio := 0, fim := some 50 }

/-- Open time entry of user 4. -/
def regOutro : RegistroHora :=
  { id := 52, usuarioId := 4, bugId := some 43, featureId := none,
    inicio := 10, fim := none }

/-- Sample database: one tenant-B project/board, three bugs (two filling the
WIP-limited `colReview`), and three time entries. -/
def dbMain : DB :=
  { projetos := [projetoB]
    boards := [boardB]
    colunas := [colBacklog, colReview, colLivre]
    bugs := [bugR1, bugR2, bugR3]
    features := []
    registros := [regAberto, regFechado, regOutro]
    nextId := 100 }

/-- Closed time-entry row used to exercise `duracao`: 5400 seconds of work. -/
def regDemo : RegistroHora :=
  { id := 60, usuarioId := 2, bugId := some 43, featureId := none,
    inicio := 0, fim := some 5400 }

/-- A column returned by `findColuna db cid` carries the id it was looked up
by. -/
lemma findColuna_id {db : DB} {cid : Nat} {c : Coluna}
    (h : findColuna db cid = some c) : c.id = cid := by
  unfold findColuna at h
  have := List.find?_some h
  simpa using this

/-- Mapping a function that never turns a non-selected element into a selected
one cannot increase the number of selected elements. -/
lemma length_filter_map_le {α : Type} (f : α → α) (q : α → Bool)
    (h : ∀ x, q (f x) = true → q x = true) (l : List α) :
    ((l.map f).filter q).length ≤ (l.filter q).length := by
  induction l with
  | nil => simp
  | cons a t ih =>
    simp only [List.map_cons, List.filter_cons]
    by_cases hfa : q (f a) = true
    · rw [if_pos hfa, if_pos (h a hfa)]
      simp only [List.length_cons]
      exact Nat.succ_le_succ ih
    · rw [if_neg hfa]
      by_cases hqa : q a = true
      · rw [if_pos hqa]
        simp only [List.length_cons]
        exact Nat.le_succ_of_le ih
      · rw [if_neg hqa]
        exact ih

/-- Rounding to the nearest integer (ties to even) moves a rational by at most
one half. -/
lemma roundHalfEven_abs_le (q : ℚ) : |(roundHalfEven q : ℚ) - q| ≤ 1 / 2 := by
  have h0 : (⌊q⌋ : ℚ) ≤ q := Int.floor_le q
  have h1 : q < ⌊q⌋ + 1 := Int.lt_floor_add_one q
  unfold roundHalfEven
  split_ifs with hlt hgt hev
  · rw [abs_sub_comm, abs_of_nonneg (by linarith)]
    linarith
  · push_cast
    rw [abs_of_nonneg (by linarith)]
    linarith
  · rw [abs_sub_comm, abs_of_nonneg (by linarith)]
    linarith
  · push_cast
    rw [abs_of_nonneg (by linarith)]
    linarith

/-- 100 times a 2-decimal rounding is an integer. -/
lemma pythonRound2_mul_den (q : ℚ) : (100 * pythonRound2 q).den = 1 := by
  unfold pythonRound2
  rw [mul_comm, div_mul_cancel₀ _ (by norm_num : (100 : ℚ) ≠ 0)]
  exact Rat.den_intCast _

/-- Rounding to 2 decimal places moves a rational by at most 1/200. -/
lemma pythonRound2_abs_le (q : ℚ) : |pythonRound2 q - q| ≤ 1 / 200 := by
  unfold pythonRound2
  have h := roundHalfEven_abs_le (100 * q)
  have heq : (roundHalfEven (100 * q) : ℚ) / 100 - q
      = ((roundHalfEven (100 * q) : ℚ) - 100 * q) / 100 := by ring
  rw [heq, abs_div, abs_of_nonneg (by norm_num : (0 : ℚ) ≤ 100)]
  rw [div_le_iff₀ (by norm_num : (0 : ℚ) < 100)]
  linarith

/-- C1: the claim says every cross-tenant read or mutate attempt is denied and
is reported as not-found.  The code refutes both parts:
`VortexPermissions.tem_acesso_projeto` makes no tenant comparison at all and
grants `adminA` (tenant EmpresaA) read access to `projetoB` (a project of
tenant EmpresaB that `adminA` is no member of); and when a cross-tenant
funcionario attacks an existing item, `mover_item_ajax` answers with the
authorization payload (`Sem permissao para mover item`), which differs from
the not-found payload and thereby reveals that the item exists. -/
theorem c1_isolamento_tenant :
    tem_acesso_projeto adminA projetoB = true ∧
    adminA.empresa ≠ projetoB.criado_por.empresa ∧
    projetoB.membros.contains adminA.id = false ∧
    (mover_item dbMain funcA .bug 41 30 0).1 = MoveResult.semPermissao ∧
    MoveResult.semPermissao ≠ MoveResult.itemNaoEncontrado := by decide

/-- C2: the claim says a move into a full WIP-limited column fails with the
WIP-exceeded error.  In the code, any move whose target column has
`limite_wip ≠ 0` dies inside `pode_adicionar_item` with an `AttributeError`
(surfaced as a generic error payload, never the WIP-exceeded one), whether the
column is full (`colReview`: limit 2, 2 active items) or empty (`colLivre`:
limit 5, 0 items).  The database is left unchanged, but the required
WIP-exceeded error is unreachable. -/
theorem c2_wip_movimento :
    (findColuna dbMain 32 = some colReview ∧ colReview.limite_wip = 2 ∧
      countAtivos dbMain 32 = 2) ∧
    mover_item dbMain donoB .bug 43 32 0 = (MoveResult.atributoErro, dbMain) ∧
    MoveResult.atributoErro ≠ MoveResult.wipExcedido ∧
    mover_item dbMain donoB .bug 43 33 0 = (MoveResult.atributoErro, dbMain) ∧
    countAtivos dbMain 33 = 0 := by decide

/-- C3: the claim says creating an item into a column whose WIP limit is
already reached fails with a WIP-exceeded error and creates nothing.  The
code has no WIP check on the create path: with `colReview` at its limit
(2 of 2 active items), `criar_item` succeeds and the column ends up holding
3 active items. -/
theorem c3_criacao_sem_wip :
    countAtivos dbMain 32 = 2 ∧ colReview.limite_wip = 2 ∧
    (criar_item dbMain donoB 20 .feature "Nova feature" 32 none).1 = CreateResult.criado 100 ∧
    countAtivos (criar_item dbMain donoB 20 .feature "Nova feature" 32 none).2 32 = 3 := by decide

/-- C4: at most one open time entry per user, globally.  Conjunction of:
(a) a start invoked while the invoking user already has any open entry never
returns `iniciado` and leaves the database unchanged, so no record is
created; (b) `iniciar_registro_hora` preserves "at most one open entry" for
every user; (c) `finalizar_registro_hora` preserves it as well. -/
theorem c4_registro_unico : ∀ (db : DB) (u : Usuario) (tipo : ItemTipo)
    (itemId registroId : Nat) (agora : Int) (uid : Nat),
    ((registros_abertos db u.id).isEmpty = false →
      (iniciar_registro_hora db u tipo itemId agora).2 = db ∧
      ∀ n, (iniciar_registro_hora db u tipo itemId agora).1 ≠ StartResult.iniciado n) ∧
    ((registros_abertos db uid).length ≤ 1 →
      (registros_abertos (iniciar_registro_hora db u tipo itemId agora).2 uid).length ≤ 1) ∧
    ((registros_abertos db uid).length ≤ 1 →
      (registros_abertos (finalizar_registro_hora db u registroId agora).2 uid).length ≤ 1) := by
  intro db u tipo itemId registroId agora uid
  refine ⟨?_, ?_, ?_⟩
  · intro hopen
    unfold iniciar_registro_hora
    cases hfi : findItem db tipo itemId with
    | none => exact ⟨rfl, fun n => by simp⟩
    | some item =>
      dsimp only
      by_cases hperm : pode_registrar_hora u item = true
      · rw [hperm, hopen]
        exact ⟨rfl, fun n => by simp⟩
      · rw [Bool.not_eq_true] at hperm
        rw [hperm]
        exact ⟨rfl, fun n => by simp⟩
  · intro hlen
    unfold iniciar_registro_hora
    cases hfi : findItem db tipo itemId with
    | none => exact hlen
    | some item =>
      dsimp only
      by_cases hperm : pode_registrar_hora u item = true
      · rw [hperm]
        by_cases hopen : (registros_abertos db u.id).isEmpty = true
        · rw [hopen]
          unfold registros_abertos at hopen hlen ⊢
          simp only [Bool.not_true, Bool.false_eq_true, if_false]
          rw [List.filter_append]
          by_cases huid : u.id = uid
          · subst huid
            rw [List.isEmpty_iff] at hopen
            simp [hopen]
          · have hne : ((u.id : Nat) == uid) = false := by
              simp
              omega
            simp [List.filter, hne]
            simpa using hlen
        · rw [Bool.not_eq_true] at hopen
          rw [hopen]
          exact hlen
      · rw [Bool.not_eq_true] at hperm
        rw [hperm]
        exact hlen
  · intro hlen
    unfold finalizar_registro_hora
    cases hff : db.registros.find? (fun r =>
        r.id == registroId && r.usuarioId == u.id && r.fim == none) with
    | none => exact hlen
    | some r =>
      dsimp only
      unfold registros_abertos at hlen ⊢
      dsimp only
      refine le_trans (length_filter_map_le _ _ ?_ db.registros) hlen
      intro x hx
      by_cases hid : (x.id == r.id) = true
      · rw [if_pos hid] at hx
        simp at hx
      · rw [if_neg hid] at hx
        exact hx

/-- C4 witness: in `dbMain` user 2 has the open entry `regAberto`, and a
further start for that user is rejected without touching the database. -/
theorem c4_witness :
    (registros_abertos dbMain donoB.id).isEmpty = false ∧
    ((iniciar_registro_hora dbMain donoB .bug 43 200).2 = dbMain ∧
      ∀ n, (iniciar_registro_hora dbMain donoB .bug 43 200).1 ≠ StartResult.iniciado n) :=
  ⟨by decide, (c4_registro_unico dbMain donoB .bug 43 50 200 2).1 (by decide)⟩

/-- C5: the claim says an admin may read and write everything inside the own
tenant, including moving any item, regardless of project membership.  The
code refutes the move part: `adminB` shares the tenant of `projetoB`, is not
among its members, passes the read gate (`tem_acesso_projeto`) and the edit
gate (`pode_editar_item`), yet `pode_mover_item` requires even admins to be
project members, so the move is denied. -/
theorem c5_admin_nao_membro :
    adminB.tipo = Tipo.admin ∧
    adminB.empresa = projetoB.criado_por.empresa ∧
    projetoB.membros.contains adminB.id = false ∧
    tem_acesso_projeto adminB projetoB = true ∧
    pode_editar_item dbMain adminB bugR1 = true ∧
    pode_mover_item dbMain adminB bugR1 = false ∧
    (mover_item dbMain adminB .bug 43 30 0).1 = MoveResult.semPermissao := by decide

/-- C6: stops of a foreign or already-closed entry are rejected as not-found
with the database untouched, as claimed; but the claim also requires
`end > start`, and the code never checks it: stopping the open entry
`regAberto` (inicio 100) at time 50 succeeds and commits `fim = 50 ≤ 100`.
The check only exists in `RegistroHora.clean`, which the save path of
`finalizar_registro_hora` never invokes. -/
theorem c6_finalizacao :
    (finalizar_registro_hora dbMain donoB 52 200).1 = StopResult.naoEncontrado ∧
    (finalizar_registro_hora dbMain donoB 52 200).2 = dbMain ∧
    (finalizar_registro_hora dbMain donoB 51 200).1 = StopResult.naoEncontrado ∧
    regAberto.inicio = 100 ∧
    (finalizar_registro_hora dbMain donoB 50 50).1 = StopResult.finalizado ∧
    ((finalizar_registro_hora dbMain donoB 50 50).2.registros.find?
        (fun r => r.id == 50)).map RegistroHora.fim = some (some 50) ∧
    (50 : Int) ≤ 100 := by decide

/-- C7: `Bug.calcular_pontos` is 3 plus the severity table (baixa 0, media 1,
alta 2, critica 3); `Feature.calcular_pontos` is 5 plus the bracket bonus on
estimated hours (up to 4 none, up to 8 add 3, up to 16 add 5, above add 8);
in particular a critical bug scores 6 and a 10-hour feature scores 10. -/
theorem c7_pontuacao :
    (∀ sev, calcular_pontos_bug sev = 3 + bonusSeveridadeSpec sev) ∧
    (∀ e : ℚ,
      (e ≤ 4 → calcular_pontos_feature e = 5) ∧
      (4 < e → e ≤ 8 → calcular_pontos_feature e = 8) ∧
      (8 < e → e ≤ 16 → calcular_pontos_feature e = 10) ∧
      (16 < e → calcular_pontos_feature e = 13)) ∧
    calcular_pontos_bug .critica = 6 ∧ calcular_pontos_feature 10 = 10 := by
  refine ⟨fun sev => by cases sev <;> rfl, fun e => ?_, by rfl,
    by norm_num [calcular_pontos_feature]⟩
  unfold calcular_pontos_feature
  refine ⟨?_, ?_, ?_, ?_⟩ <;> intros <;> split_ifs <;> first | rfl | linarith

/-- C7 witness: the 10-hour feature falls in the third bracket and scores 10. -/
theorem c7_witness :
    ((8 : ℚ) < 10 ∧ (10 : ℚ) ≤ 16) ∧ calcular_pontos_feature 10 = 10 :=
  ⟨⟨by norm_num, by norm_num⟩, (c7_pontuacao.2.1 10).2.2.1 (by norm_num) (by norm_num)⟩

/-- C8: `esta_atrasado` is true exactly when the item has a due date strictly
before today and its column is not titled `Concluído`; an item without a due
date, or sitting in the `Concluído` column, is never overdue. -/
theorem c8_atraso : ∀ (prazo : Option ℤ) (titulo : String) (hoje : ℤ),
    esta_atrasado prazo titulo hoje = true ↔
      ∃ p, prazo = some p ∧ p < hoje ∧ titulo ≠ "Concluído" := by
  intro prazo titulo hoje
  cases prazo with
  | none => simp [esta_atrasado]
  | some p =>
    by_cases ht : titulo = "Concluído"
    · simp [esta_atrasado, ht]
    · simp [esta_atrasado, ht]

/-- C8 witness: due day 5, today 10, column `Backlog`: overdue. -/
theorem c8_witness : esta_atrasado (some 5) "Backlog" 10 = true :=
  (c8_atraso (some 5) "Backlog" 10).mpr ⟨5, rfl, by norm_num, by decide⟩

/-- C9: a move whose target column equals the items current column (a pure
reorder) never fails with the WIP-exceeded error, for every WIP limit and
item count.  In the source the WIP-exceeded response additionally requires
`nova_coluna != item.coluna`; an unlimited target passes the check outright,
and a limited target makes `pode_adicionar_item` raise before that response
can be produced, so no request at all, in particular no reorder, surfaces
the WIP-exceeded error. -/
theorem c9_reorder_nunca_wip : ∀ (db : DB) (u : Usuario) (tipo : ItemTipo)
    (itemId colunaId : Nat) (novaOrdem : Int) (item : ItemRec),
    findItem db tipo itemId = some item →
    item.colunaId = colunaId →
    (mover_item db u tipo itemId colunaId novaOrdem).1 ≠ MoveResult.wipExcedido := by
  intro db u tipo itemId colunaId novaOrdem item hfind hcol
  unfold mover_item
  rw [hfind]
  by_cases hperm : pode_mover_item db u item
  · cases hc2 : findColuna db colunaId with
    | none => simp [hperm, hc2]
    | some nova =>
      have hid : nova.id = colunaId := findColuna_id hc2
      cases hpa : pode_adicionar_item db nova with
      | error e => simp [hperm, hc2, hpa]
      | ok b => simp [hperm, hc2, hpa, hid, hcol]
  · simp [hperm]

/-- C9 witness: reordering `bugR1` inside the full WIP-limited `colReview`
does not produce the WIP-exceeded error. -/
theorem c9_witness :
    findItem dbMain .bug 41 = some bugR1 ∧ bugR1.colunaId = 32 ∧
    (mover_item dbMain donoB .bug 41 32 5).1 ≠ MoveResult.wipExcedido :=
  ⟨by decide, by decide,
    c9_reorder_nunca_wip dbMain donoB .bug 41 32 5 bugR1 (by decide) (by decide)⟩

/-- C10: `duracao` is total and returns 0 while the entry is open; for a
closed entry it returns the elapsed hours rounded to 2 decimal places: the
value times 100 is an integer and it differs from the exact
`(fim - inicio) / 3600` by at most half of the last kept digit (1/200).
Concretely, 5400 elapsed seconds give 1.5 hours. -/
theorem c10_duracao :
    (∀ (r : RegistroHora),
      (r.fim = none → duracao r = 0) ∧
      ∀ f, r.fim = some f →
        (100 * duracao r).den = 1 ∧
        |duracao r - ((f - r.inicio : ℤ) : ℚ) / 3600| ≤ 1 / 200) ∧
    duracao regDemo = 3 / 2 := by
  refine ⟨fun r => ⟨fun h => by simp [duracao, h], fun f h => ?_⟩, ?_⟩
  · simp only [duracao, h]
    exact ⟨pythonRound2_mul_den _, pythonRound2_abs_le _⟩
  · norm_num [duracao, regDemo, pythonRound2, roundHalfEven]

/-- C10 witness: the closed demo entry has an integral-in-cents duration
within 1/200 of its exact elapsed hours. -/
theorem c10_witness :
    regDemo.fim = some 5400 ∧
    ((100 * duracao regDemo).den = 1 ∧
      |duracao regDemo - ((5400 - regDemo.inicio : ℤ) : ℚ) / 3600| ≤ 1 / 200) :=
  ⟨rfl, (c10_duracao.1 regDemo).2 5400 rfl⟩
